import Mathlib

/-!
Verification of `googlecloudsdk/command_lib/compute/routers/router_utils.py`
(shared helpers for the `gcloud compute routers` subcommands).

The module is shallowly embedded below.  The code is 2017-era Google Cloud SDK
code running on Python 2, so `map` returns a list (evaluated eagerly) and
`None` compares as smaller than every string; both facts are reflected in the
embedding.  Exceptions are modelled with `Except`: the module's domain error
`CustomWithDefaultError`, Python's `ValueError` (raised by
`_GetResourceClassStr` and by enum conversion), and the cancellation raised by
`console_io.PromptContinue(cancel_on_no=True)` when the user declines.
-/

deriving instance DecidableEq for Except

namespace RouterUtils

/-- The two members of `AdvertiseModeValueValuesEnum` of the API message
classes (the keys of `_MODE_CHOICES`). -/
inductive AdvertiseMode
  | DEFAULT
  | CUSTOM
deriving DecidableEq, Repr

/-- The single member of `AdvertisedGroupsValueListEntryValuesEnum`
(the key of `_GROUP_CHOICES`). -/
inductive AdvertisedGroup
  | ALL_SUBNETS
deriving DecidableEq, Repr

/-- The `resource_class` argument: either of the two recognised API message
classes `messages.RouterBgp` / `messages.RouterBgpPeer`, or any other Python
value (carried as its textual representation, used in the `ValueError`
message). -/
inductive ResourceClass
  | RouterBgp
  | RouterBgpPeer
  | other (repr : String)
deriving DecidableEq, Repr

/-- The exceptions that can escape the module's functions. -/
inductive PyError
  | customWithDefault (msg : String)
  | valueError (msg : String)
  | operationCancelled
deriving DecidableEq, Repr

/-- `_MODE_SWITCH_MESSAGE` with the `resource` placeholder filled in. -/
def MODE_SWITCH_MESSAGE (resource : String) : String :=
  "WARNING: switching from custom advertisement mode to default will clear " ++
    "out any existing advertised groups/ranges from this " ++ resource ++ "."

/-- `_CUSTOM_WITH_DEFAULT_ERROR_MESSAGE` with the `resource` placeholder
filled in. -/
def CUSTOM_WITH_DEFAULT_ERROR_MESSAGE (resource : String) : String :=
  "Cannot specify custom advertisements for a " ++ resource ++
    " with default mode."

/-- `_GetResourceClassStr`: maps the two recognised message classes to their
resource-kind strings and raises `ValueError` on anything else. -/
def GetResourceClassStr : ResourceClass → Except PyError String
  | ResourceClass.RouterBgp => Except.ok "router"
  | ResourceClass.RouterBgpPeer => Except.ok "peer"
  | ResourceClass.other r =>
      Except.error (PyError.valueError ("Invalid resource_class value: " ++ r))

/-- `CustomWithDefaultError.__init__`: building the exception object first
resolves the resource-kind string (which can itself raise `ValueError`) and
then formats the error message.  `Except.ok e` is a successfully constructed
exception object `e`. -/
def CustomWithDefaultErrorInit (resource_class : ResourceClass) :
    Except PyError PyError :=
  (GetResourceClassStr resource_class).map
    (fun s => PyError.customWithDefault (CUSTOM_WITH_DEFAULT_ERROR_MESSAGE s))

/-- The exception that actually escapes a `raise CustomWithDefaultError(...)`
statement: the constructed error, or the `ValueError` from the constructor. -/
def raiseCustomWithDefaultError (resource_class : ResourceClass) : PyError :=
  match CustomWithDefaultErrorInit resource_class with
  | Except.ok e => e
  | Except.error e => e

/-- `AdvertiseModeValueValuesEnum(mode)`: string-to-enum conversion, raising
on an unrecognised value. -/
def AdvertiseModeOfString (s : String) : Except PyError AdvertiseMode :=
  if s = "DEFAULT" then Except.ok AdvertiseMode.DEFAULT
  else if s = "CUSTOM" then Except.ok AdvertiseMode.CUSTOM
  else Except.error (PyError.valueError ("No such value for " ++ s ++
    " in Enum AdvertiseMode"))

/-- `AdvertisedGroupsValueListEntryValuesEnum(group)`: string-to-enum
conversion, raising on an unrecognised value. -/
def AdvertisedGroupOfString (s : String) : Except PyError AdvertisedGroup :=
  if s = "ALL_SUBNETS" then Except.ok AdvertisedGroup.ALL_SUBNETS
  else Except.error (PyError.valueError ("No such value for " ++ s ++
    " in Enum AdvertisedGroups"))

/-- `ParseMode(resource_class, mode)`. -/
def ParseMode (_resource_class : ResourceClass) (mode : String) :
    Except PyError AdvertiseMode :=
  AdvertiseModeOfString mode

/-- `ParseGroups(resource_class, groups)`: Python 2 `map` builds the converted
list eagerly, so the first bad element raises. -/
def ParseGroups (_resource_class : ResourceClass) (groups : List String) :
    Except PyError (List AdvertisedGroup) :=
  groups.mapM AdvertisedGroupOfString

/-- A `messages.RouterAdvertisedPrefix` object.  Its first field is named
`p-refix` (without the dash) in the source; that spelling is unavailable here,
so the spec's name `cidr` is used.  The description is `none` when the range
was given without `=DESC` (`ArgDict(allow_key_only=True)` stores `None`). -/
structure RouterAdvertisedPrefix where
  cidr : String
  description : Option String
deriving DecidableEq, Repr

/-- Python's string comparison, lexicographic by code point, as a `≤` test on
the underlying character lists. -/
def charListLe : List Char → List Char → Bool
  | [], _ => true
  | _ :: _, [] => false
  | c :: cs, d :: ds => if c = d then charListLe cs ds else decide (c < d)

/-- Python's `s1 <= s2` on strings. -/
def pyStrLe (a b : String) : Bool :=
  charListLe a.data b.data

/-- Python 2 ordering on the `description` sort-key component: `None` sorts
before every string. -/
def optDescLe (a b : Option String) : Bool :=
  match a, b with
  | none, _ => true
  | some _, none => false
  | some x, some y => pyStrLe x y

/-- The sort key of `ParsePrefixes`:
`operator.attrgetter('p-refix', 'description')` compared as a tuple, i.e.
lexicographically by (cidr, description).  On distinct cidr strings the
strict and non-strict string comparisons agree. -/
def advertisedPrefixKeyLe (p q : RouterAdvertisedPrefix) : Bool :=
  if p.cidr = q.cidr then optDescLe p.description q.description
  else pyStrLe p.cidr q.cidr

/-- The sort order as a decidable relation (for `List.insertionSort`). -/
def prefixKeyRel (p q : RouterAdvertisedPrefix) : Prop :=
  advertisedPrefixKeyLe p q = true

instance : DecidableRel prefixKeyRel :=
  fun p q => inferInstanceAs (Decidable (advertisedPrefixKeyLe p q = true))

theorem charListLe_total (a b : List Char) :
    charListLe a b = true ∨ charListLe b a = true := by
  induction a generalizing b with
  | nil => exact Or.inl rfl
  | cons c cs ih =>
    cases b with
    | nil => exact Or.inr rfl
    | cons d ds =>
      by_cases h : c = d
      · subst h
        simpa [charListLe] using ih ds
      · rcases lt_or_gt_of_ne h with hlt | hgt
        · left
          simp only [charListLe, if_neg h]
          exact decide_eq_true hlt
        · right
          have hne : ¬d = c := fun h2 => h h2.symm
          simp only [charListLe, if_neg hne]
          exact decide_eq_true hgt

theorem charListLe_trans {a b c : List Char} (hab : charListLe a b = true)
    (hbc : charListLe b c = true) : charListLe a c = true := by
  induction a generalizing b c with
  | nil => rfl
  | cons x xs ih =>
    cases b with
    | nil => simp [charListLe] at hab
    | cons y ys =>
      cases c with
      | nil => simp [charListLe] at hbc
      | cons z zs =>
        by_cases hxy : x = y <;> by_cases hyz : y = z
        · subst hxy
          subst hyz
          simp only [charListLe, if_pos rfl] at hab hbc ⊢
          exact ih hab hbc
        · subst hxy
          simpa only [charListLe, if_neg hyz] using hbc
        · subst hyz
          simpa only [charListLe, if_neg hxy] using hab
        · simp only [charListLe, if_neg hxy, decide_eq_true_eq] at hab
          simp only [charListLe, if_neg hyz, decide_eq_true_eq] at hbc
          have hxz : x < z := lt_trans hab hbc
          simp [charListLe, ne_of_lt hxz, hxz]

theorem charListLe_antisymm {a b : List Char} (hab : charListLe a b = true)
    (hba : charListLe b a = true) : a = b := by
  induction a generalizing b with
  | nil =>
    cases b with
    | nil => rfl
    | cons d ds => simp [charListLe] at hba
  | cons c cs ih =>
    cases b with
    | nil => simp [charListLe] at hab
    | cons d ds =>
      by_cases h : c = d
      · subst h
        simp only [charListLe, if_pos rfl] at hab hba
        rw [ih hab hba]
      · have hne : ¬d = c := fun h2 => h h2.symm
        simp only [charListLe, if_neg h, decide_eq_true_eq] at hab
        simp only [charListLe, if_neg hne, decide_eq_true_eq] at hba
        exact absurd (lt_trans hab hba) (lt_irrefl _)

theorem pyStrLe_total (a b : String) :
    pyStrLe a b = true ∨ pyStrLe b a = true :=
  charListLe_total a.data b.data

theorem pyStrLe_trans {a b c : String} (hab : pyStrLe a b = true)
    (hbc : pyStrLe b c = true) : pyStrLe a c = true :=
  charListLe_trans hab hbc

theorem pyStrLe_antisymm {a b : String} (hab : pyStrLe a b = true)
    (hba : pyStrLe b a = true) : a = b := by
  cases a with
  | mk da =>
    cases b with
    | mk db => exact congrArg String.mk (charListLe_antisymm hab hba)

theorem optDescLe_total (a b : Option String) :
    optDescLe a b = true ∨ optDescLe b a = true := by
  rcases a with _ | x
  · exact Or.inl rfl
  · rcases b with _ | y
    · exact Or.inr rfl
    · exact pyStrLe_total x y

theorem optDescLe_trans {a b c : Option String} (hab : optDescLe a b = true)
    (hbc : optDescLe b c = true) : optDescLe a c = true := by
  rcases a with _ | x
  · rfl
  · rcases b with _ | y
    · simp [optDescLe] at hab
    · rcases c with _ | z
      · simp [optDescLe] at hbc
      · exact pyStrLe_trans hab hbc

theorem optDescLe_antisymm {a b : Option String} (hab : optDescLe a b = true)
    (hba : optDescLe b a = true) : a = b := by
  rcases a with _ | x <;> rcases b with _ | y
  · rfl
  · simp [optDescLe] at hba
  · simp [optDescLe] at hab
  · exact congrArg some (pyStrLe_antisymm hab hba)

theorem advertisedPrefixKeyLe_total (p q : RouterAdvertisedPrefix) :
    advertisedPrefixKeyLe p q = true ∨ advertisedPrefixKeyLe q p = true := by
  unfold advertisedPrefixKeyLe
  by_cases h : p.cidr = q.cidr
  · rw [if_pos h, if_pos h.symm]
    exact optDescLe_total _ _
  · rw [if_neg h, if_neg (fun h2 => h h2.symm)]
    exact pyStrLe_total _ _

theorem advertisedPrefixKeyLe_trans {p q r : RouterAdvertisedPrefix}
    (hpq : advertisedPrefixKeyLe p q = true)
    (hqr : advertisedPrefixKeyLe q r = true) :
    advertisedPrefixKeyLe p r = true := by
  unfold advertisedPrefixKeyLe at *
  by_cases h1 : p.cidr = q.cidr <;> by_cases h2 : q.cidr = r.cidr
  · rw [if_pos h1] at hpq
    rw [if_pos h2] at hqr
    rw [if_pos (h1.trans h2)]
    exact optDescLe_trans hpq hqr
  · rw [if_pos h1] at hpq
    rw [if_neg h2] at hqr
    rw [if_neg (fun h => h2 (h1 ▸ h)), h1]
    exact hqr
  · rw [if_neg h1] at hpq
    rw [if_pos h2] at hqr
    rw [if_neg (fun h => h1 (h.trans h2.symm)), ← h2]
    exact hpq
  · rw [if_neg h1] at hpq
    rw [if_neg h2] at hqr
    by_cases hpr : p.cidr = r.cidr
    · exfalso
      apply h1
      have hqp : pyStrLe q.cidr p.cidr = true := hpr ▸ hqr
      exact pyStrLe_antisymm hpq hqp
    · rw [if_neg hpr]
      exact pyStrLe_trans hpq hqr

theorem advertisedPrefixKeyLe_antisymm {p q : RouterAdvertisedPrefix}
    (hpq : advertisedPrefixKeyLe p q = true)
    (hqp : advertisedPrefixKeyLe q p = true) : p = q := by
  unfold advertisedPrefixKeyLe at *
  by_cases h : p.cidr = q.cidr
  · rw [if_pos h] at hpq
    rw [if_pos h.symm] at hqp
    cases p
    cases q
    simp only [ RouterAdvertisedPrefix.mk.injEq]
    exact ⟨h, optDescLe_antisymm hpq hqp⟩
  · rw [if_neg h] at hpq
    rw [if_neg (fun h2 => h h2.symm)] at hqp
    exact absurd (pyStrLe_antisymm hpq hqp) h

instance : IsTotal RouterAdvertisedPrefix prefixKeyRel :=
  ⟨advertisedPrefixKeyLe_total⟩

instance : IsTrans RouterAdvertisedPrefix prefixKeyRel :=
  ⟨fun _ _ _ => advertisedPrefixKeyLe_trans⟩

instance : IsAntisymm RouterAdvertisedPrefix prefixKeyRel :=
  ⟨fun _ _ => advertisedPrefixKeyLe_antisymm⟩

/-- `ParsePrefixes(messages, ranges)`: builds one
` RouterAdvertisedPrefix` per dict entry and sorts the result by the key
(cidr, description).  The dict is embedded as its list of items; CPython's
`list.sort` is a stable ascending sort by the key, embedded here as a stable
insertion sort under the same total preorder (with a total preorder whose
key determines the element, every correct sort returns the same list). -/
def ParsePrefixes (ranges : List (String × Option String)) :
    List RouterAdvertisedPrefix :=
  List.insertionSort prefixKeyRel
    (ranges.map (fun r => { cidr := r.1, description := r.2 }))

/-- The advertisement-related flag values as they reach `ParseAdvertisements`:
`args.mode`, `args.groups` and `args.ranges`, each `None` when the flag was
not supplied.  A dict value of a key-only range entry is `none`. -/
structure Args where
  mode : Option String
  groups : Option (List String)
  ranges : Option (List (String × Option String))
deriving DecidableEq, Repr

/-- Python truthiness of an optional list: `None` and `[]` are falsy. -/
def optListTruthy {α : Type} (l : Option (List α)) : Bool :=
  match l with
  | none => false
  | some l => !l.isEmpty

/-- The `mode = None; if args.mode is not None: mode = ParseMode(...)` block
of `ParseAdvertisements`. -/
def parseOptMode (resource_class : ResourceClass) :
    Option String → Except PyError (Option AdvertiseMode)
  | none => Except.ok none
  | some m => (ParseMode resource_class m).map some

/-- The `groups = None; if args.groups is not None: groups = ParseGroups(...)`
block of `ParseAdvertisements`. -/
def parseOptGroups (resource_class : ResourceClass) :
    Option (List String) → Except PyError (Option (List AdvertisedGroup))
  | none => Except.ok none
  | some g => (ParseGroups resource_class g).map some

/-- `ParseAdvertisements(messages, resource_class, args)`: parses mode, groups
and prefixes in that order (each `None` when absent), then validates the
DEFAULT-mode policy. -/
def ParseAdvertisements (resource_class : ResourceClass) (args : Args) :
    Except PyError (Option AdvertiseMode × Option (List AdvertisedGroup) ×
      Option (List RouterAdvertisedPrefix)) :=
  match parseOptMode resource_class args.mode with
  | Except.error e => Except.error e
  | Except.ok mode =>
    match parseOptGroups resource_class args.groups with
    | Except.error e => Except.error e
    | Except.ok groups =>
      let prefixes := args.ranges.map ParsePrefixes
      if mode = some AdvertiseMode.DEFAULT then
        if optListTruthy groups || optListTruthy prefixes then
          Except.error (raiseCustomWithDefaultError resource_class)
        else
          Except.ok (mode, some [], some [])
      else
        Except.ok (mode, groups, prefixes)

/-- Modelled from the spec: `console_io.PromptContinue` (the `console_io`
module is not among the sources) displays the message, requests interactive
confirmation, and with `cancel_on_no=True` aborts the operation by raising a
cancellation (`OperationCancelledError`) when the user declines.  The user's
answer is passed in as `userAccepts`. -/
def PromptContinue (_message : String) (cancel_on_no : Bool)
    (userAccepts : Bool) : Except PyError Bool :=
  if userAccepts then Except.ok true
  else if cancel_on_no then Except.error PyError.operationCancelled
  else Except.ok false

/-- The observable outcome of `PromptIfSwitchToDefaultMode`: whether the
confirmation prompt was requested, and the warning message displayed with
it. -/
structure PromptResult where
  prompted : Bool
  warning : Option String
deriving DecidableEq, Repr

/-- `PromptIfSwitchToDefaultMode(messages, resource_class, existing_mode,
new_mode)`: prompts (after resolving the resource-kind string) exactly when
the guard of the source's single `if` holds. -/
def PromptIfSwitchToDefaultMode (resource_class : ResourceClass)
    (existing_mode new_mode : Option AdvertiseMode) (userAccepts : Bool) :
    Except PyError PromptResult :=
  if existing_mode ≠ none ∧ existing_mode = some AdvertiseMode.CUSTOM ∧
      new_mode ≠ none ∧ new_mode = some AdvertiseMode.DEFAULT then
    match GetResourceClassStr resource_class with
    | Except.error e => Except.error e
    | Except.ok s =>
      match PromptContinue (MODE_SWITCH_MESSAGE s) true userAccepts with
      | Except.error e => Except.error e
      | Except.ok _ => Except.ok ⟨true, some (MODE_SWITCH_MESSAGE s)⟩
  else
    Except.ok ⟨false, none⟩

/-- Whether a run of `PromptIfSwitchToDefaultMode` requested interactive
confirmation: either it returned having prompted, or it was cancelled at the
prompt. -/
def promptOccurs : Except PyError PromptResult → Bool
  | Except.ok r => r.prompted
  | Except.error PyError.operationCancelled => true
  | Except.error _ => false

/-- Whether an exception is the user-initiated cancellation (as opposed to the
module's domain error or a `ValueError`). -/
def isCancellation : PyError → Bool
  | PyError.operationCancelled => true
  | _ => false

/-- The keys of `_MODE_CHOICES`, registered as the choices of `--mode`. -/
def MODE_CHOICE_KEYS : List String :=
  ["DEFAULT", "CUSTOM"]

/-- The keys of `_GROUP_CHOICES`, registered as the choices of `--groups`. -/
def GROUP_CHOICE_KEYS : List String :=
  ["ALL_SUBNETS"]

/-- Python's `str.upper()` on the flag values (they are ASCII): uppercases
every character. -/
def pyUpper (s : String) : String :=
  String.mk (s.data.map Char.toUpper)

/-- Modelled from the spec: the argument-parsing machinery behind
`AddCustomAdvertisementArgs` (calliope/argparse is not among the sources)
first applies the flag's `type` callable to the raw string and then checks
the converted value against `choices`.  For `--mode` the source registers
`type=lambda mode: mode.upper()` with `choices=_MODE_CHOICES`. -/
def modeFlagValue (raw : String) : Except PyError String :=
  let v := pyUpper raw
  if MODE_CHOICE_KEYS.contains v then Except.ok v
  else Except.error (PyError.valueError ("Invalid choice: " ++ v))

/-- Modelled from the spec: for `--groups` the source registers
`ArgList(choices=_GROUP_CHOICES, element_type=lambda mode: mode.upper())`,
so each list element is uppercased and then checked against the choices. -/
def groupsFlagValue (raws : List String) : Except PyError (List String) :=
  raws.mapM (fun raw =>
    let v := pyUpper raw
    if GROUP_CHOICE_KEYS.contains v then Except.ok v
    else Except.error (PyError.valueError ("Invalid choice: " ++ v)))

theorem ParseMode_ok_default {rc : ResourceClass} {m : String}
    (h : ParseMode rc m = Except.ok AdvertiseMode.DEFAULT) : m = "DEFAULT" := by
  unfold ParseMode AdvertiseModeOfString at h
  split_ifs at h with h1 h2
  · exact h1
  · simp at h

theorem ParseMode_ok_custom {rc : ResourceClass} {m : String}
    (h : ParseMode rc m = Except.ok AdvertiseMode.CUSTOM) : m = "CUSTOM" := by
  unfold ParseMode AdvertiseModeOfString at h
  split_ifs at h with h1 h2
  · simp at h
  · exact h2

theorem AdvertisedGroupOfString_error {s : String} {e : PyError}
    (h : AdvertisedGroupOfString s = Except.error e) :
    ∃ msg, e = PyError.valueError msg := by
  unfold AdvertisedGroupOfString at h
  split_ifs at h with h1
  exact ⟨_, (Except.error.inj h).symm⟩

theorem ParseGroups_all_subnets {rc : ResourceClass} {gs : List String}
    (hg : ∀ g ∈ gs, g = "ALL_SUBNETS") :
    ParseGroups rc gs =
      Except.ok (gs.map (fun _ => AdvertisedGroup.ALL_SUBNETS)) := by
  induction gs with
  | nil => rfl
  | cons g gs ih =>
    have hgh : g = "ALL_SUBNETS" := hg g (List.mem_cons_self g gs)
    subst hgh
    have ih2 := ih (fun g hgm => hg g (List.mem_cons_of_mem _ hgm))
    unfold ParseGroups at ih2 ⊢
    rw [List.mapM_cons, ih2]
    rfl

theorem ParseGroups_error {rc : ResourceClass} {gs : List String} {e : PyError}
    (h : ParseGroups rc gs = Except.error e) :
    ∃ msg, e = PyError.valueError msg := by
  induction gs generalizing e with
  | nil =>
    unfold ParseGroups at h
    rw [List.mapM_nil] at h
    simp [pure, Except.pure] at h
  | cons g gs ih =>
    unfold ParseGroups at h ih
    rw [List.mapM_cons] at h
    cases hg : AdvertisedGroupOfString g with
    | error e2 =>
      rw [hg] at h
      simp only [bind, Except.bind] at h
      exact (Except.error.inj h) ▸ AdvertisedGroupOfString_error hg
    | ok a =>
      rw [hg] at h
      simp only [bind, Except.bind] at h
      cases hgs : List.mapM AdvertisedGroupOfString gs with
      | error e3 =>
        rw [hgs] at h
        exact (Except.error.inj h) ▸ ih hgs
      | ok as =>
        rw [hgs] at h
        simp [pure, Except.pure] at h

theorem ParsePrefixes_ne_nil {rs : List (String × Option String)}
    (h : rs ≠ []) : ParsePrefixes rs ≠ [] := by
  intro hc
  apply h
  have hp := List.perm_insertionSort prefixKeyRel
    (rs.map (fun r => ({ cidr := r.1, description := r.2 } :
       RouterAdvertisedPrefix)))
  unfold ParsePrefixes at hc
  rw [hc] at hp
  have hm : rs.map (fun r => ({ cidr := r.1, description := r.2 } :
      RouterAdvertisedPrefix)) = [] := (List.perm_nil.mp hp.symm)
  exact List.map_eq_nil_iff.mp hm

theorem ParsePrefixes_isEmpty_false {rs : List (String × Option String)}
    (h : rs ≠ []) : (ParsePrefixes rs).isEmpty = false := by
  cases hp : ParsePrefixes rs with
  | nil => exact absurd hp (ParsePrefixes_ne_nil h)
  | cons p ps => simp [hp]

/-- Claim C3: for every mapping from CIDR string to optional description, the
list returned by `ParsePrefixes` is sorted ascending lexicographically by the
pair (cidr, description): for every pair of entries in output order, either
the cidrs are equal and the descriptions are in order, or the cidrs are
distinct and in order. -/
theorem ParsePrefixes_sorted (ranges : List (String × Option String)) :
    (ParsePrefixes ranges).Pairwise
      (fun p q => (p.cidr = q.cidr ∧ optDescLe p.description q.description = true) ∨
        (p.cidr ≠ q.cidr ∧ pyStrLe p.cidr q.cidr = true)) := by
  have h : List.Sorted prefixKeyRel (ParsePrefixes ranges) :=
    List.sorted_insertionSort prefixKeyRel _
  refine h.imp ?_
  intro p q hpq
  unfold prefixKeyRel advertisedPrefixKeyLe at hpq
  by_cases hc : p.cidr = q.cidr
  · exact Or.inl ⟨hc, by rwa [if_pos hc] at hpq⟩
  · exact Or.inr ⟨hc, by rwa [if_neg hc] at hpq⟩

/-- Claim C7: `ParsePrefixes` is deterministic in the mapping's contents: two
ranges mappings with the same entries, enumerated in different orders (i.e.
permutations of one another), produce equal lists. -/
theorem ParsePrefixes_deterministic (l1 l2 : List (String × Option String))
    (h : l1.Perm l2) : ParsePrefixes l1 = ParsePrefixes l2 := by
  have h1 := List.perm_insertionSort prefixKeyRel
    (l1.map (fun r => ({ cidr := r.1, description := r.2 } :
      RouterAdvertisedPrefix)))
  have h2 := List.perm_insertionSort prefixKeyRel
    (l2.map (fun r => ({ cidr := r.1, description := r.2 } :
      RouterAdvertisedPrefix)))
  have hperm : (ParsePrefixes l1).Perm (ParsePrefixes l2) :=
    h1.trans ((h.map _).trans h2.symm)
  exact List.eq_of_perm_of_sorted hperm
    (List.sorted_insertionSort prefixKeyRel _)
    (List.sorted_insertionSort prefixKeyRel _)

/-- Witness for claim C7 at a concrete pair of permuted mappings. -/
theorem ParsePrefixes_deterministic_witness :
    ([("a", (none : Option String)), ("b", some "x")] :
        List (String × Option String)).Perm
        [("b", some "x"), ("a", none)] ∧
      ParsePrefixes [("a", none), ("b", some "x")] =
        ParsePrefixes [("b", some "x"), ("a", none)] :=
  ⟨by decide, ParsePrefixes_deterministic _ _ (by decide)⟩

/-- Claim C8: on the mapping with entries "10.0.0.0/8" mapped to "" and
"1.2.3.0/24" mapped to "b", `ParsePrefixes` returns exactly the two records
("1.2.3.0/24", "b") then ("10.0.0.0/8", ""). -/
theorem ParsePrefixes_example :
    ParsePrefixes [("10.0.0.0/8", some ""), ("1.2.3.0/24", some "b")] =
      [{ cidr := "1.2.3.0/24", description := some "b" },
        { cidr := "10.0.0.0/8", description := some "" }] := by
  decide

/-- Claim C9: for every resource class other than the router or peer message
type, `_GetResourceClassStr` raises `ValueError`; consequently constructing
`CustomWithDefaultError` fails with that `ValueError`, and so does
`PromptIfSwitchToDefaultMode` in its prompting case. -/
theorem GetResourceClassStr_invalid (s : String) :
    GetResourceClassStr (ResourceClass.other s) =
        Except.error (PyError.valueError
          ("Invalid resource_class value: " ++ s)) ∧
      CustomWithDefaultErrorInit (ResourceClass.other s) =
        Except.error (PyError.valueError
          ("Invalid resource_class value: " ++ s)) ∧
      (∀ userAccepts : Bool,
        PromptIfSwitchToDefaultMode (ResourceClass.other s)
            (some AdvertiseMode.CUSTOM) (some AdvertiseMode.DEFAULT)
            userAccepts =
          Except.error (PyError.valueError
            ("Invalid resource_class value: " ++ s))) := by
  refine ⟨rfl, rfl, fun userAccepts => ?_⟩
  simp [PromptIfSwitchToDefaultMode, GetResourceClassStr]

/-- Claim C4: for every pair of modes, `PromptIfSwitchToDefaultMode` requests
interactive confirmation exactly when the existing mode is CUSTOM and the new
mode is DEFAULT; for every other combination (including absent modes) it is a
no-op. -/
theorem PromptIfSwitchToDefaultMode_prompts_iff
    (resource_class : ResourceClass)
    (existing_mode new_mode : Option AdvertiseMode) (userAccepts : Bool)
    (hrc : resource_class = ResourceClass.RouterBgp ∨
      resource_class = ResourceClass.RouterBgpPeer) :
    (promptOccurs (PromptIfSwitchToDefaultMode resource_class existing_mode
        new_mode userAccepts) = true ↔
      (existing_mode = some AdvertiseMode.CUSTOM ∧
        new_mode = some AdvertiseMode.DEFAULT)) ∧
    (¬(existing_mode = some AdvertiseMode.CUSTOM ∧
        new_mode = some AdvertiseMode.DEFAULT) →
      PromptIfSwitchToDefaultMode resource_class existing_mode new_mode
          userAccepts = Except.ok ⟨false, none⟩) := by
  rcases hrc with rfl | rfl <;>
    rcases existing_mode with _ | (_ | _) <;>
      rcases new_mode with _ | (_ | _) <;>
        cases userAccepts <;> decide

/-- Witness for claim C4 at the router class, modes (CUSTOM, DEFAULT), with
the user accepting. -/
theorem PromptIfSwitchToDefaultMode_prompts_iff_witness :
    (promptOccurs (PromptIfSwitchToDefaultMode ResourceClass.RouterBgp
        (some AdvertiseMode.CUSTOM) (some AdvertiseMode.DEFAULT) true) =
          true ↔
      (some AdvertiseMode.CUSTOM = some AdvertiseMode.CUSTOM ∧
        some AdvertiseMode.DEFAULT = some AdvertiseMode.DEFAULT)) ∧
    (¬(some AdvertiseMode.CUSTOM = some AdvertiseMode.CUSTOM ∧
        some AdvertiseMode.DEFAULT = some AdvertiseMode.DEFAULT) →
      PromptIfSwitchToDefaultMode ResourceClass.RouterBgp
          (some AdvertiseMode.CUSTOM) (some AdvertiseMode.DEFAULT) true =
        Except.ok ⟨false, none⟩) :=
  PromptIfSwitchToDefaultMode_prompts_iff ResourceClass.RouterBgp
    (some AdvertiseMode.CUSTOM) (some AdvertiseMode.DEFAULT) true (Or.inl rfl)

/-- Claim C6: when `PromptIfSwitchToDefaultMode` prompts (existing mode
CUSTOM, new mode DEFAULT) and the user declines, the operation aborts with
the user-initiated cancellation, which is not the module's domain error
`CustomWithDefaultError` (nor any other error constructor). -/
theorem PromptIfSwitchToDefaultMode_decline_cancels
    (resource_class : ResourceClass)
    (hrc : resource_class = ResourceClass.RouterBgp ∨
      resource_class = ResourceClass.RouterBgpPeer) :
    PromptIfSwitchToDefaultMode resource_class (some AdvertiseMode.CUSTOM)
        (some AdvertiseMode.DEFAULT) false =
      Except.error PyError.operationCancelled ∧
    isCancellation PyError.operationCancelled = true ∧
    (∀ msg, PyError.operationCancelled ≠ PyError.customWithDefault msg) ∧
    (∀ msg, PyError.operationCancelled ≠ PyError.valueError msg) := by
  rcases hrc with rfl | rfl <;>
    exact ⟨by decide, rfl, fun msg h => PyError.noConfusion h,
      fun msg h => PyError.noConfusion h⟩

/-- Witness for claim C6 at the peer class. -/
theorem PromptIfSwitchToDefaultMode_decline_cancels_witness :
    PromptIfSwitchToDefaultMode ResourceClass.RouterBgpPeer
        (some AdvertiseMode.CUSTOM) (some AdvertiseMode.DEFAULT) false =
      Except.error PyError.operationCancelled ∧
    isCancellation PyError.operationCancelled = true ∧
    (∀ msg, PyError.operationCancelled ≠ PyError.customWithDefault msg) ∧
    (∀ msg, PyError.operationCancelled ≠ PyError.valueError msg) :=
  PromptIfSwitchToDefaultMode_decline_cancels ResourceClass.RouterBgpPeer
    (Or.inr rfl)

/-- Claim C1: for every resource kind (router or peer) and every argument set
whose mode parses to DEFAULT and whose (choice-valid) groups list or ranges
map is non-empty, `ParseAdvertisements` fails by raising
`CustomWithDefaultError` whose message is "Cannot specify custom
advertisements for a {resourceKind} with default mode." with the resource
kind filled in. -/
theorem ParseAdvertisements_default_with_custom_fails
    (resource_class : ResourceClass) (args : Args) (m : String)
    (hrc : resource_class = ResourceClass.RouterBgp ∨
      resource_class = ResourceClass.RouterBgpPeer)
    (hm : args.mode = some m)
    (hmd : ParseMode resource_class m = Except.ok AdvertiseMode.DEFAULT)
    (hg : ∀ g ∈ args.groups.getD [], g = "ALL_SUBNETS")
    (hne : args.groups.getD [] ≠ [] ∨ args.ranges.getD [] ≠ []) :
    ∃ s, GetResourceClassStr resource_class = Except.ok s ∧
      ParseAdvertisements resource_class args =
        Except.error (PyError.customWithDefault
          ("Cannot specify custom advertisements for a " ++ s ++
            " with default mode.")) := by
  have hmD := ParseMode_ok_default hmd
  subst hmD
  have key : ParseAdvertisements resource_class args =
      Except.error (raiseCustomWithDefaultError resource_class) := by
    rcases hag : args.groups with _ | gs
    · rcases har : args.ranges with _ | rs
      · rw [hag, har] at hne
        simp at hne
      · have hrs : rs ≠ [] := by
          rw [hag, har] at hne
          simpa using hne
        simp [ParseAdvertisements, parseOptMode, parseOptGroups, Except.map,
          hm, hmd, hag, har, optListTruthy, ParsePrefixes_isEmpty_false hrs]
    · have hgsub : ∀ g ∈ gs, g = "ALL_SUBNETS" := by
        rw [hag] at hg
        simpa using hg
      have hpg : ParseGroups resource_class gs =
          Except.ok (gs.map (fun _ => AdvertisedGroup.ALL_SUBNETS)) :=
        ParseGroups_all_subnets hgsub
      rcases gs with _ | ⟨g, gs2⟩
      · rcases har : args.ranges with _ | rs
        · rw [hag, har] at hne
          simp at hne
        · have hrs : rs ≠ [] := by
            rw [hag, har] at hne
            simpa using hne
          simp [ParseAdvertisements, parseOptMode, parseOptGroups,
            Except.map, hm, hmd, hag, har, hpg, optListTruthy,
            ParsePrefixes_isEmpty_false hrs]
      · simp [ParseAdvertisements, parseOptMode, parseOptGroups, Except.map,
          hm, hmd, hag, hpg, optListTruthy]
  rcases hrc with rfl | rfl
  · exact ⟨"router", rfl, by rw [key]; rfl⟩
  · exact ⟨"peer", rfl, by rw [key]; rfl⟩

/-- Witness for claim C1: router kind, mode DEFAULT, one group, no ranges. -/
theorem ParseAdvertisements_default_with_custom_fails_witness :
    ∃ s, GetResourceClassStr ResourceClass.RouterBgp = Except.ok s ∧
      ParseAdvertisements ResourceClass.RouterBgp
          ⟨some "DEFAULT", some ["ALL_SUBNETS"], none⟩ =
        Except.error (PyError.customWithDefault
          ("Cannot specify custom advertisements for a " ++ s ++
            " with default mode.")) :=
  ParseAdvertisements_default_with_custom_fails ResourceClass.RouterBgp
    ⟨some "DEFAULT", some ["ALL_SUBNETS"], none⟩ "DEFAULT" (Or.inl rfl) rfl
    (by decide) (by decide) (by decide)

/-- Claim C2: for every argument set whose mode parses to DEFAULT and whose
supplied groups and ranges are empty (absent or supplied as empty
collections), `ParseAdvertisements` returns (DEFAULT, empty list, empty
list): switching to default mode always clears any custom configuration. -/
theorem ParseAdvertisements_default_clears (resource_class : ResourceClass)
    (args : Args) (m : String)
    (hm : args.mode = some m)
    (hmd : ParseMode resource_class m = Except.ok AdvertiseMode.DEFAULT)
    (hg : args.groups = none ∨ args.groups = some [])
    (hr : args.ranges = none ∨ args.ranges = some []) :
    ParseAdvertisements resource_class args =
      Except.ok (some AdvertiseMode.DEFAULT, some [], some []) := by
  have hmD := ParseMode_ok_default hmd
  subst hmD
  rcases hg with hag | hag <;> rcases hr with har | har <;>
    simp [ParseAdvertisements, parseOptMode, parseOptGroups, Except.map,
      hm, hmd, hag, har, optListTruthy, ParseGroups, List.mapM.loop,
      ParsePrefixes, pure, Except.pure]

/-- Witness for claim C2: peer kind, mode DEFAULT, groups supplied as the
empty list, ranges absent. -/
theorem ParseAdvertisements_default_clears_witness :
    ParseAdvertisements ResourceClass.RouterBgpPeer
        ⟨some "DEFAULT", some [], none⟩ =
      Except.ok (some AdvertiseMode.DEFAULT, some [], some []) :=
  ParseAdvertisements_default_clears ResourceClass.RouterBgpPeer
    ⟨some "DEFAULT", some [], none⟩ "DEFAULT" rfl (by decide)
    (Or.inr rfl) (Or.inl rfl)

/-- Claim C5: for every argument set whose mode is absent or parses to
CUSTOM, `ParseAdvertisements` never raises `CustomWithDefaultError`, and
returns the mode, groups and prefixes exactly as parsed (groups converted
element-wise, ranges converted and sorted by `ParsePrefixes`, absent inputs
returned as absent). -/
theorem ParseAdvertisements_custom_passthrough
    (resource_class : ResourceClass) (args : Args) (M : Option AdvertiseMode)
    (hm : (args.mode = none ∧ M = none) ∨
      (∃ m, args.mode = some m ∧
        ParseMode resource_class m = Except.ok AdvertiseMode.CUSTOM ∧
        M = some AdvertiseMode.CUSTOM)) :
    (∀ msg, ParseAdvertisements resource_class args ≠
        Except.error (PyError.customWithDefault msg)) ∧
    (∀ G : Option (List AdvertisedGroup),
      ((args.groups = none ∧ G = none) ∨
        (∃ gs pg, args.groups = some gs ∧
          ParseGroups resource_class gs = Except.ok pg ∧ G = some pg)) →
      ParseAdvertisements resource_class args =
        Except.ok (M, G, args.ranges.map ParsePrefixes)) := by
  have hmok : parseOptMode resource_class args.mode = Except.ok M := by
    rcases hm with ⟨hm1, rfl⟩ | ⟨m, hm1, hpm, rfl⟩
    · rw [hm1]
      rfl
    · rw [hm1]
      simp [parseOptMode, hpm, Except.map]
  have hMnd : M ≠ some AdvertiseMode.DEFAULT := by
    rcases hm with ⟨hm1, rfl⟩ | ⟨m, hm1, hpm, rfl⟩ <;> simp
  constructor
  · intro msg
    rcases hag : args.groups with _ | gs
    · simp [ParseAdvertisements, hmok, hag, parseOptGroups, hMnd]
    · rcases hpg : ParseGroups resource_class gs with e | pg
      · obtain ⟨msg2, rfl⟩ := ParseGroups_error hpg
        simp [ParseAdvertisements, hmok, hag, parseOptGroups, Except.map, hpg]
      · simp [ParseAdvertisements, hmok, hag, parseOptGroups, Except.map,
          hpg, hMnd]
  · intro G hG
    rcases hG with ⟨hag, rfl⟩ | ⟨gs, pg, hag, hpg, rfl⟩
    · simp [ParseAdvertisements, hmok, hag, parseOptGroups, hMnd]
    · simp [ParseAdvertisements, hmok, hag, parseOptGroups, Except.map,
        hpg, hMnd]

/-- Witness for claim C5: router kind, mode CUSTOM, one group, one range. -/
theorem ParseAdvertisements_custom_passthrough_witness :
    ParseAdvertisements ResourceClass.RouterBgp
        ⟨some "CUSTOM", some ["ALL_SUBNETS"], some [("10.0.0.0/8", none)]⟩ =
      Except.ok (some AdvertiseMode.CUSTOM,
        some [AdvertisedGroup.ALL_SUBNETS],
        (some [("10.0.0.0/8", (none : Option String))]).map ParsePrefixes) :=
  (ParseAdvertisements_custom_passthrough ResourceClass.RouterBgp
      ⟨some "CUSTOM", some ["ALL_SUBNETS"], some [("10.0.0.0/8", none)]⟩
      (some AdvertiseMode.CUSTOM)
      (Or.inr ⟨"CUSTOM", rfl, by decide, rfl⟩)).2
    (some [AdvertisedGroup.ALL_SUBNETS])
    (Or.inr ⟨["ALL_SUBNETS"], [AdvertisedGroup.ALL_SUBNETS], rfl,
      by decide, rfl⟩)

/-- Claim C10: the registered --mode flag value and each element of the
registered --groups flag are uppercased before being matched against the
choice sets, so any casing of a choice string is accepted and yields the
corresponding uppercase choice value. -/
theorem flag_values_uppercased (s : String) (gs : List String) :
    (MODE_CHOICE_KEYS.contains (pyUpper s) = true →
      modeFlagValue s = Except.ok (pyUpper s)) ∧
    (∀ v, modeFlagValue s = Except.ok v → v = pyUpper s) ∧
    ((∀ g ∈ gs, GROUP_CHOICE_KEYS.contains (pyUpper g) = true) →
      groupsFlagValue gs = Except.ok (gs.map pyUpper)) := by
  refine ⟨?_, ?_, ?_⟩
  · intro hmem
    have hmem2 : pyUpper s ∈ MODE_CHOICE_KEYS := by simpa using hmem
    simp [modeFlagValue, hmem2]
  · intro v hv
    by_cases hc : pyUpper s ∈ MODE_CHOICE_KEYS
    · simp [modeFlagValue, hc] at hv
      exact hv.symm
    · simp [modeFlagValue, hc] at hv
  · intro hmem
    induction gs with
    | nil => rfl
    | cons g gs ih =>
      have hg : pyUpper g ∈ GROUP_CHOICE_KEYS := by
        simpa using hmem g (List.mem_cons_self g gs)
      have ih2 := ih (fun g2 h2 => hmem g2 (List.mem_cons_of_mem _ h2))
      unfold groupsFlagValue at ih2 ⊢
      rw [List.mapM_cons]
      simp only [ih2]
      simp [hg, bind, Except.bind, pure, Except.pure]

/-- Witness for claim C10 at lowercase spellings of the choices. -/
theorem flag_values_uppercased_witness :
    modeFlagValue "default" = Except.ok (pyUpper "default") ∧
      modeFlagValue "custom" = Except.ok (pyUpper "custom") ∧
      groupsFlagValue ["all_subnets"] =
        Except.ok (["all_subnets"].map pyUpper) ∧
      pyUpper "default" = "DEFAULT" ∧
      pyUpper "custom" = "CUSTOM" ∧
      ["all_subnets"].map pyUpper = ["ALL_SUBNETS"] :=
  ⟨(flag_values_uppercased "default" []).1 (by decide),
    (flag_values_uppercased "custom" []).1 (by decide),
    (flag_values_uppercased "" ["all_subnets"]).2.2 (by decide),
    by decide, by decide, by decide⟩

end RouterUtils
